import Mathlib

/-!
Shallow embedding of the `HTTPStream` raft stream transport from the gansoi
node package (`HTTPStream`, `NewHTTPStream`, `Dial`, `Accept`, `Close`,
`Addr`, `String`, `Network`, `ServeHTTP`).

Modelling conventions:
- The unbuffered handoff channel `accepted` is modelled as a FIFO list of
  pending connections: a send appends exactly one element, a receive removes
  the head.  A receive on an empty list with no sender is modelled by the
  `AcceptResult.blocked` outcome (the Go call does not return).
- The global stats counters are threaded explicitly as a `Counters` record.
- Network and collaborator effects (the TLS dial result, the write result,
  the CA verification result, hijack support and outcome) are inputs taken
  from an environment (`Net`, `Request` fields), since they are decided
  outside this component.
- `time.Time{}` (the zero time, meaning "no deadline") is modelled as `0`.
- Durations are modelled as `Nat`.
- The constant `cluster.CorePrefix` lives in a package outside the sources;
  the model takes it as an explicit parameter `corePfx`.
-/

/-- A network connection as this component observes it: the address it was
dialed to, its read/write deadlines (0 = no deadline, like Go's zero
`time.Time`), the bytes written to it so far, how many reads were performed
on it, and whether it is still open. -/
structure Conn where
  remoteAddr : String := ""
  readDeadline : Nat := 0
  writeDeadline : Nat := 0
  written : String := ""
  reads : Nat := 0
  isOpen : Bool := true
deriving DecidableEq

/-- Equality of `Except` values is decidable when both components are. -/
def exceptDecEq {α β : Type} [DecidableEq α] [DecidableEq β] :
    (a b : Except α β) → Decidable (a = b)
  | .error x, .error y =>
      if h : x = y then .isTrue (by rw [h]) else .isFalse (by intro hc; cases hc; exact h rfl)
  | .error _, .ok _ => .isFalse (by intro hc; cases hc)
  | .ok _, .error _ => .isFalse (by intro hc; cases hc)
  | .ok x, .ok y =>
      if h : x = y then .isTrue (by rw [h]) else .isFalse (by intro hc; cases hc; exact h rfl)

instance {α β : Type} [DecidableEq α] [DecidableEq β] : DecidableEq (Except α β) :=
  exceptDecEq

/-- `conn.SetDeadline(t)`: sets both the read and the write deadline. -/
def Conn.SetDeadline (c : Conn) (t : Nat) : Conn :=
  { c with readDeadline := t, writeDeadline := t }

/-- `conn.SetWriteDeadline(t)`: sets the write deadline. -/
def Conn.SetWriteDeadline (c : Conn) (t : Nat) : Conn :=
  { c with writeDeadline := t }

/-- `conn.Close()`: the connection is no longer open. -/
def Conn.Close (c : Conn) : Conn :=
  { c with isOpen := false }

/-- `conn.Write(b)`: appends the bytes to the connection's write stream. -/
def Conn.Write (c : Conn) (s : String) : Conn :=
  { c with written := c.written ++ s }

/-- The four stats counters registered in the package's `init`:
`http_dialed`, `http_failed`, `http_served`, `http_accepted`. -/
structure Counters where
  http_dialed : Nat
  http_failed : Nat
  http_served : Nat
  http_accepted : Nat
deriving DecidableEq

/-- All counters start at zero (`stats.CounterInit`). -/
def Counters.init : Counters := ⟨0, 0, 0, 0⟩

/-- The fields of Go's `net.Dialer` that the code sets: keep-alive interval
and timeout (seconds and nanoseconds in Go; abstract `Nat` here). -/
structure Dialer where
  keepAlive : Nat := 0
  timeout : Nat := 0
deriving DecidableEq

/-- `HTTPStream`: the stream listener facade.  Certificates, the CA
reference and the root pool are opaque to this component and modelled as
numbers. -/
structure HTTPStream where
  closed : Bool
  addr : String
  accepted : List Conn
  dial : Dialer
  certificates : List Nat
  ca : Nat
  rootCAs : Nat
deriving DecidableEq

/-- Modelled from the spec: the CA collaborator's trusted-root-pool accessor
(`coreCA.CertPool()`), consumed once at construction.  Its internals are out
of scope; the pool is an opaque value derived from the CA. -/
def CA.CertPool (coreCA : Nat) : Nat := coreCA

/-- `NewHTTPStream(addr, certificates, coreCA)`: constructs the listener
with a fresh empty handoff channel, a dialer with a 25-second keep-alive,
and the root pool derived from the CA.  The Go error result is always nil,
modelled as `none`. -/
def NewHTTPStream (addr : String) (certificates : List Nat) (coreCA : Nat) :
    HTTPStream × Option String :=
  ({ closed := false
     addr := addr
     accepted := []
     dial := { keepAlive := 25, timeout := 0 }
     certificates := certificates
     ca := coreCA
     rootCAs := CA.CertPool coreCA }, none)

/-- Outcome of one `Accept` call.  `blocked` models the Go call suspended in
the channel receive `<-h.accepted` with no pending sender: it does not
return until some sender arrives. -/
inductive AcceptResult where
  | closedErr
  | conn (c : Conn)
  | blocked
deriving DecidableEq

/-- Result bundle of one `Accept` call: its outcome, the listener state
after the call, and the counters after the call. -/
structure AcceptOut where
  result : AcceptResult
  stream : HTTPStream
  counters : Counters
deriving DecidableEq

/-- `Accept()`: if `h.closed`, returns the error `Server is shutting down`
(the TransportClosed error) at once; otherwise increments `http_accepted`
and receives from the handoff channel — taking the head if a connection is
pending, blocking otherwise. -/
def HTTPStream.Accept (h : HTTPStream) (cnt : Counters) : AcceptOut :=
  if h.closed then
    { result := .closedErr, stream := h, counters := cnt }
  else
    let cnt := { cnt with http_accepted := cnt.http_accepted + 1 }
    match h.accepted with
    | [] => { result := .blocked, stream := h, counters := cnt }
    | c :: rest =>
        { result := .conn c, stream := { h with accepted := rest }, counters := cnt }

/-- `Close()`: sets the closed flag and returns nil.  It touches nothing
else — in particular it neither closes nor signals the handoff channel. -/
def HTTPStream.Close (h : HTTPStream) : HTTPStream × Option String :=
  ({ h with closed := true }, none)

/-- `Addr()`: the Go code returns the listener itself (`return h`) as its
`net.Addr`. -/
def HTTPStream.Addr (h : HTTPStream) : HTTPStream := h

/-- `Network()` (the `net.Addr` implementation): always `"tcp"`. -/
def HTTPStream.Network (_h : HTTPStream) : String := "tcp"

/-- One inbound HTTP request as `ServeHTTP` observes it: the value of the
`Upgrade` header (`""` when absent, as Go's `Header.Get` yields), the CA
collaborator's verification outcome for this request, whether the response
writer supports hijacking, and the hijack outcome. -/
structure Request where
  upgradeHeader : String
  verifyResult : Except String Nat
  hijackSupported : Bool
  hijackResult : Except String Conn
deriving DecidableEq

/-- What `ServeHTTP` did with the request: wrote an HTTP error response, or
hijacked the connection and pushed it into the handoff channel. -/
inductive ServeOutcome where
  | httpError (status : Nat) (msg : String)
  | handoff (c : Conn)
deriving DecidableEq

/-- Result bundle of one `ServeHTTP` invocation. -/
structure ServeOut where
  response : ServeOutcome
  stream : HTTPStream
  counters : Counters
deriving DecidableEq

/-- `ServeHTTP(w, r)`: increments `http_served`, then runs the four gates in
order — closed check (503), protocol check on `Upgrade: raft-0` (400), CA
verification (401), hijack support (500), hijack (500 on failure) — and on
full success clears the webserver's deadlines and sends the connection on
the handoff channel. -/
def HTTPStream.ServeHTTP (h : HTTPStream) (cnt : Counters) (r : Request) : ServeOut :=
  let cnt := { cnt with http_served := cnt.http_served + 1 }
  if h.closed then
    { response := .httpError 503 "Server is shutting down", stream := h, counters := cnt }
  else if r.upgradeHeader != "raft-0" then
    { response := .httpError 400 "This endpoint is for streaming raft",
      stream := h, counters := cnt }
  else
    match r.verifyResult with
    | .error e => { response := .httpError 401 e, stream := h, counters := cnt }
    | .ok _ =>
      if !r.hijackSupported then
        { response := .httpError 500 "webserver doesn't support hijacking",
          stream := h, counters := cnt }
      else
        match r.hijackResult with
        | .error e => { response := .httpError 500 e, stream := h, counters := cnt }
        | .ok conn =>
          let conn := (conn.SetDeadline 0).SetWriteDeadline 0
          { response := .handoff conn
            stream := { h with accepted := h.accepted ++ [conn] }
            counters := cnt }

/-- The network environment one `Dial` call runs against: the outcome of
`tls.DialWithDialer` and the outcome of the single `conn.Write`. -/
structure Net where
  tlsResult : Except String Conn
  writeErr : Option String
deriving DecidableEq

/-- `tls.DialWithDialer(&dial, "tcp", address, conf)`: the environment
decides success or failure; on success the returned connection records the
address it was dialed to. -/
def tlsDialWithDialer (dial : Dialer) (address : String) (rootCAs : Nat)
    (certificates : List Nat) (net : Net) : Except String Conn :=
  match dial, rootCAs, certificates, net.tlsResult with
  | _, _, _, .error e => .error e
  | _, _, _, .ok c => .ok { c with remoteAddr := address }

/-- The literal upgrade request written after the TLS handshake:
`fmt.Sprintf("GET %s/raft HTTP/1.1\nHost: %s\nUpgrade: raft-0\n\n", cluster.CorePrefix, address)`.
Note the bare `\n` line endings in the Go format string. -/
def openRequestLine (corePfx address : String) : String :=
  "GET " ++ corePfx ++ "/raft HTTP/1.1\nHost: " ++ address ++ "\nUpgrade: raft-0\n\n"

/-- Result bundle of one `Dial` call: the returned value (connection or
error), any connection the call opened but did not return (`residual`; the
caller can observe whether it leaked open), the listener state after the
call, and the counters after the call. -/
structure DialOut where
  result : Except String Conn
  residual : Option Conn
  stream : HTTPStream
  counters : Counters
deriving DecidableEq

/-- `Dial(address, timeout)`: copies the stored dialer locally and sets the
caller's timeout on the copy; appends `":4934"` when the address has no
`':'` (`strings.IndexRune(address, ':') < 0`); increments `http_dialed`;
dials TLS (on failure: `http_failed` is incremented and the error is
returned); writes the upgrade line (on failure: the connection is closed,
`http_failed` is incremented and the error is returned); on success returns
the connection. -/
def HTTPStream.Dial (h : HTTPStream) (cnt : Counters) (corePfx : String)
    (address : String) (timeout : Nat) (net : Net) : DialOut :=
  let dial := { h.dial with timeout := timeout }
  let address := if address.data.contains ':' then address else address ++ ":4934"
  let cnt := { cnt with http_dialed := cnt.http_dialed + 1 }
  match tlsDialWithDialer dial address h.rootCAs h.certificates net with
  | .error e =>
      { result := .error e, residual := none, stream := h,
        counters := { cnt with http_failed := cnt.http_failed + 1 } }
  | .ok conn =>
      let line := openRequestLine corePfx address
      match net.writeErr with
      | some e =>
          { result := .error e, residual := some conn.Close, stream := h,
            counters := { cnt with http_failed := cnt.http_failed + 1 } }
      | none =>
          { result := .ok (conn.Write line), residual := none, stream := h,
            counters := cnt }

/-- The address a successful `Dial` targeted, when observable. -/
def DialOut.dialedAddr (d : DialOut) : Option String :=
  match d.result with
  | .ok c => some c.remoteAddr
  | .error _ => none

/-- Alias for the string type, needed only because the next definition is
itself named `String` inside the `HTTPStream` namespace, after the Go
method name. -/
abbrev GoString := String

/-- `String()` (the `net.Addr` implementation): the stored address. -/
def HTTPStream.String (h : HTTPStream) : GoString := h.addr

/-- A freshly constructed listener used as a concrete sample. -/
def hSample : HTTPStream := (NewHTTPStream "127.0.0.1:4934" [] 0).fst

/-- A network environment where TLS dial and write both succeed on a fresh
connection. -/
def netOk : Net := { tlsResult := .ok {}, writeErr := none }

/-- A concrete fully valid inbound request used as a sample. -/
def reqSample : Request :=
  { upgradeHeader := "raft-0", verifyResult := Except.ok 1,
    hijackSupported := true, hijackResult := Except.ok {} }

/-- A network environment where the TLS dial fails. -/
def netTlsFail : Net := { tlsResult := .error "connection refused", writeErr := none }

/-- A network environment where TLS succeeds but the upgrade write fails. -/
def netWriteFail : Net := { tlsResult := .ok {}, writeErr := some "broken pipe" }

/-- Helper: `Dial` leaves the listener state untouched in every branch. -/
theorem dial_stream_frame (h : HTTPStream) (cnt : Counters) (p a : String)
    (t : Nat) (net : Net) : (h.Dial cnt p a t net).stream = h := by
  unfold HTTPStream.Dial tlsDialWithDialer
  cases net.tlsResult <;> cases net.writeErr <;> simp

/-- Claim C1: the claim requires a `Close` invoked while `Accept` is blocked
to unblock that `Accept` with the TransportClosed error in bounded time, and
the doc comment of `Close` in the source promises the same; but the code's
`Close` only sets the `closed` flag and never sends on, closes, or otherwise
signals the `accepted` channel, so the receive a blocked `Accept` waits on
can only ever complete through a later `ServeHTTP` handoff.  Evaluated at
the failing input: a fresh listener's `Accept` blocks (empty channel, not
closed), and `Close` leaves the channel exactly as empty as it found it,
providing no sender. -/
theorem C1_close_does_not_unblock_accept :
    (hSample.Accept Counters.init).result = AcceptResult.blocked ∧
    hSample.Close.fst.accepted = hSample.accepted ∧
    hSample.Close.fst.accepted = [] := by
  refine ⟨rfl, rfl, rfl⟩

/-- Claim C2: an `Accept` call made when the closed flag is already true
returns the TransportClosed error immediately: the result is the closed
error (not a connection, not a blocked receive), and neither the listener
state nor the counters are touched, i.e. the call never reaches the channel
receive. -/
theorem C2_accept_after_close (h : HTTPStream) (cnt : Counters)
    (hc : h.closed = true) :
    (h.Accept cnt).result = AcceptResult.closedErr ∧
    (h.Accept cnt).stream = h ∧
    (h.Accept cnt).counters = cnt := by
  unfold HTTPStream.Accept
  rw [hc]
  exact ⟨rfl, rfl, rfl⟩

/-- Witness for C2 on a concrete closed listener. -/
theorem C2_accept_after_close_witness :
    (hSample.Close.fst.Accept Counters.init).result = AcceptResult.closedErr ∧
    (hSample.Close.fst.Accept Counters.init).stream = hSample.Close.fst ∧
    (hSample.Close.fst.Accept Counters.init).counters = Counters.init :=
  C2_accept_after_close hSample.Close.fst Counters.init rfl

/-- Claim C3: when all four gates pass — listener not closed, `Upgrade`
header exactly `raft-0`, CA verification returns an identity, hijacking
supported and successful — `ServeHTTP` hands off exactly the hijacked
connection with both deadlines cleared, appending exactly one connection to
the handoff channel; and when the channel was empty, a single `Accept` call
receives exactly that connection and removes it, so the connection reaches
exactly one `Accept` caller and is neither duplicated nor dropped. -/
theorem C3_valid_request_exactly_one_handoff (h : HTTPStream) (cnt cnt2 : Counters)
    (r : Request) (i : Nat) (c : Conn)
    (hc : h.closed = false) (hu : r.upgradeHeader = "raft-0")
    (hv : r.verifyResult = Except.ok i) (hh : r.hijackSupported = true)
    (hj : r.hijackResult = Except.ok c) :
    (h.ServeHTTP cnt r).response =
      ServeOutcome.handoff ((c.SetDeadline 0).SetWriteDeadline 0) ∧
    (h.ServeHTTP cnt r).stream.accepted =
      h.accepted ++ [(c.SetDeadline 0).SetWriteDeadline 0] ∧
    ((c.SetDeadline 0).SetWriteDeadline 0).readDeadline = 0 ∧
    ((c.SetDeadline 0).SetWriteDeadline 0).writeDeadline = 0 ∧
    (h.accepted = [] →
      ((h.ServeHTTP cnt r).stream.Accept cnt2).result =
        AcceptResult.conn ((c.SetDeadline 0).SetWriteDeadline 0) ∧
      ((h.ServeHTTP cnt r).stream.Accept cnt2).stream.accepted = []) := by
  unfold HTTPStream.ServeHTTP HTTPStream.Accept
  rw [hc, hu, hv, hh, hj]
  refine ⟨rfl, rfl, rfl, rfl, fun he => ?_⟩
  rw [he]
  exact ⟨rfl, rfl⟩

/-- Witness for C3 on a fresh listener and a fully valid concrete request. -/
theorem C3_valid_request_exactly_one_handoff_witness :
    (hSample.ServeHTTP Counters.init
        { upgradeHeader := "raft-0", verifyResult := Except.ok 1,
          hijackSupported := true,
          hijackResult := Except.ok { readDeadline := 7, writeDeadline := 9 } }).response =
      ServeOutcome.handoff
        ((Conn.SetWriteDeadline
          (Conn.SetDeadline { readDeadline := 7, writeDeadline := 9 } 0) 0)) ∧
    (hSample.ServeHTTP Counters.init
        { upgradeHeader := "raft-0", verifyResult := Except.ok 1,
          hijackSupported := true,
          hijackResult := Except.ok { readDeadline := 7, writeDeadline := 9 } }).stream.accepted =
      hSample.accepted ++
        [Conn.SetWriteDeadline
          (Conn.SetDeadline { readDeadline := 7, writeDeadline := 9 } 0) 0] := by
  have t := C3_valid_request_exactly_one_handoff hSample Counters.init Counters.init
    { upgradeHeader := "raft-0", verifyResult := Except.ok 1,
      hijackSupported := true,
      hijackResult := Except.ok { readDeadline := 7, writeDeadline := 9 } }
    1 { readDeadline := 7, writeDeadline := 9 } rfl rfl rfl rfl rfl
  exact ⟨t.1, t.2.1⟩

/-- Claim C6: a request that passes the closed check and the protocol check
but fails CA verification is answered with status 401 carrying the
verification error, and the listener state is untouched — in particular
nothing is pushed into the handoff channel, so no hijack handoff happened:
authentication runs strictly before ownership transfer. -/
theorem C6_auth_failure_401_no_hijack (h : HTTPStream) (cnt : Counters)
    (r : Request) (e : String)
    (hc : h.closed = false) (hu : r.upgradeHeader = "raft-0")
    (hv : r.verifyResult = Except.error e) :
    (h.ServeHTTP cnt r).response = ServeOutcome.httpError 401 e ∧
    (h.ServeHTTP cnt r).stream = h := by
  unfold HTTPStream.ServeHTTP
  rw [hc, hu, hv]
  exact ⟨rfl, rfl⟩

/-- Witness for C6 on a fresh listener and a concrete failing verification. -/
theorem C6_auth_failure_401_no_hijack_witness :
    (hSample.ServeHTTP Counters.init
        { upgradeHeader := "raft-0", verifyResult := Except.error "bad cert",
          hijackSupported := true, hijackResult := Except.ok {} }).response =
      ServeOutcome.httpError 401 "bad cert" ∧
    (hSample.ServeHTTP Counters.init
        { upgradeHeader := "raft-0", verifyResult := Except.error "bad cert",
          hijackSupported := true, hijackResult := Except.ok {} }).stream = hSample :=
  C6_auth_failure_401_no_hijack hSample Counters.init
    { upgradeHeader := "raft-0", verifyResult := Except.error "bad cert",
      hijackSupported := true, hijackResult := Except.ok {} } "bad cert" rfl rfl rfl

/-- Claim C4 counterexample: the claim asserts CRLF (`\r\n`) line endings in
the upgrade request, but the Go format string uses bare `\n`.  On a concrete
successful dial the bytes written to the connection are the LF string, which
differs from the CRLF string of the claim. -/
theorem C4_counterexample :
    (hSample.Dial Counters.init "/core" "10.0.0.5:80" 7 netOk).result =
      Except.ok { remoteAddr := "10.0.0.5:80",
                  written := openRequestLine "/core" "10.0.0.5:80" } ∧
    openRequestLine "/core" "10.0.0.5:80" ≠
      "GET /core/raft HTTP/1.1\r\nHost: 10.0.0.5:80\r\nUpgrade: raft-0\r\n\r\n" := by
  constructor
  · rfl
  · decide

/-- Claim C4 amended: after the TLS handshake, `Dial` writes to the
connection exactly the literal bytes
`GET <core-prefix>/raft HTTP/1.1\nHost: <address>\nUpgrade: raft-0\n\n` —
bare LF line endings, not CRLF — with the configured core prefix and the
dialed address (port-resolved: `:4934` appended when the address carries no
`':'`) substituted, and performs no reads (hence no HTTP response parsing)
before returning the connection. -/
theorem C4_amended_lf_upgrade_line (h : HTTPStream) (cnt : Counters)
    (pfx address : String) (t : Nat) (net : Net) (c0 : Conn)
    (hnet : net.tlsResult = Except.ok c0) (hw : net.writeErr = none) :
    (h.Dial cnt pfx address t net).result =
      Except.ok (Conn.Write { c0 with remoteAddr :=
          (if address.data.contains ':' then address else address ++ ":4934") }
        (openRequestLine pfx
          (if address.data.contains ':' then address else address ++ ":4934"))) ∧
    (Conn.Write { c0 with remoteAddr :=
          (if address.data.contains ':' then address else address ++ ":4934") }
        (openRequestLine pfx
          (if address.data.contains ':' then address else address ++ ":4934"))).written =
      c0.written ++
        ("GET " ++ pfx ++ "/raft HTTP/1.1\nHost: " ++
          (if address.data.contains ':' then address else address ++ ":4934") ++
          "\nUpgrade: raft-0\n\n") ∧
    (Conn.Write { c0 with remoteAddr :=
          (if address.data.contains ':' then address else address ++ ":4934") }
        (openRequestLine pfx
          (if address.data.contains ':' then address else address ++ ":4934"))).reads =
      c0.reads := by
  unfold HTTPStream.Dial tlsDialWithDialer openRequestLine Conn.Write
  rw [hnet, hw]
  exact ⟨rfl, rfl, rfl⟩

/-- Witness for the amended C4 on a concrete port-less address: the written
line carries the port-resolved address `10.0.0.5:4934`. -/
theorem C4_amended_lf_upgrade_line_witness :
    (hSample.Dial Counters.init "/core" "10.0.0.5" 7 netOk).result =
      Except.ok (Conn.Write { remoteAddr := "10.0.0.5:4934" }
        (openRequestLine "/core" "10.0.0.5:4934")) ∧
    (Conn.Write { remoteAddr := "10.0.0.5:4934" }
        (openRequestLine "/core" "10.0.0.5:4934")).written =
      "" ++ ("GET " ++ "/core" ++ "/raft HTTP/1.1\nHost: " ++ "10.0.0.5:4934" ++
        "\nUpgrade: raft-0\n\n") ∧
    (Conn.Write { remoteAddr := "10.0.0.5:4934" }
        (openRequestLine "/core" "10.0.0.5:4934")).reads = 0 :=
  C4_amended_lf_upgrade_line hSample Counters.init "/core" "10.0.0.5" 7 netOk
    {} rfl rfl

/-- Claim C5: `Dial` appends the default port `4934` exactly when the
address contains no `':'`; an address already carrying a port separator is
dialed unchanged. -/
theorem C5_default_port (h : HTTPStream) (cnt : Counters) (pfx address : String)
    (t : Nat) (net : Net) (c0 : Conn)
    (hnet : net.tlsResult = Except.ok c0) (hw : net.writeErr = none) :
    (address.data.contains ':' = false →
      (h.Dial cnt pfx address t net).dialedAddr = some (address ++ ":4934")) ∧
    (address.data.contains ':' = true →
      (h.Dial cnt pfx address t net).dialedAddr = some address) := by
  unfold HTTPStream.Dial tlsDialWithDialer DialOut.dialedAddr
  rw [hnet, hw]
  constructor
  · intro hp; rw [hp]; rfl
  · intro hp; rw [hp]; rfl

/-- Witness for C5: `"10.0.0.5"` is dialed as `"10.0.0.5:4934"` and
`"10.0.0.5:9000"` is dialed unchanged. -/
theorem C5_default_port_witness :
    (hSample.Dial Counters.init "/core" "10.0.0.5" 7 netOk).dialedAddr =
      some "10.0.0.5:4934" ∧
    (hSample.Dial Counters.init "/core" "10.0.0.5:9000" 7 netOk).dialedAddr =
      some "10.0.0.5:9000" :=
  ⟨(C5_default_port hSample Counters.init "/core" "10.0.0.5" 7 netOk {}
      rfl rfl).1 (by decide),
   (C5_default_port hSample Counters.init "/core" "10.0.0.5:9000" 7 netOk {}
      rfl rfl).2 (by decide)⟩

/-- Claim C7: on TLS failure `Dial` returns the error with no connection
left behind and increments `http_failed`; on write failure it returns the
error, the opened connection is closed (not leaked open) before the return,
and `http_failed` is incremented; there is no second dial attempt in either
case (the single network outcome fully determines the result).  On success
the `http_dialed` counter has been incremented and `http_failed` is
untouched. -/
theorem C7_dial_failure_closes_and_counts (h : HTTPStream) (cnt : Counters)
    (pfx address : String) (t : Nat) (net : Net) :
    (∀ e, net.tlsResult = Except.error e →
      (h.Dial cnt pfx address t net).result = Except.error e ∧
      (h.Dial cnt pfx address t net).residual = none ∧
      (h.Dial cnt pfx address t net).counters.http_failed = cnt.http_failed + 1) ∧
    (∀ c0 e, net.tlsResult = Except.ok c0 → net.writeErr = some e →
      (h.Dial cnt pfx address t net).result = Except.error e ∧
      (∃ c, (h.Dial cnt pfx address t net).residual = some c ∧ c.isOpen = false) ∧
      (h.Dial cnt pfx address t net).counters.http_failed = cnt.http_failed + 1) ∧
    (∀ c0, net.tlsResult = Except.ok c0 → net.writeErr = none →
      (∃ c, (h.Dial cnt pfx address t net).result = Except.ok c) ∧
      (h.Dial cnt pfx address t net).counters.http_dialed = cnt.http_dialed + 1 ∧
      (h.Dial cnt pfx address t net).counters.http_failed = cnt.http_failed) := by
  refine ⟨fun e hnet => ?_, fun c0 e hnet hw => ?_, fun c0 hnet hw => ?_⟩
  · unfold HTTPStream.Dial tlsDialWithDialer
    rw [hnet]
    exact ⟨rfl, rfl, rfl⟩
  · unfold HTTPStream.Dial tlsDialWithDialer
    rw [hnet, hw]
    exact ⟨rfl, ⟨_, rfl, rfl⟩, rfl⟩
  · unfold HTTPStream.Dial tlsDialWithDialer
    rw [hnet, hw]
    exact ⟨⟨_, rfl⟩, rfl, rfl⟩

/-- Witness for C7 on the three concrete network environments. -/
theorem C7_dial_failure_closes_and_counts_witness :
    (hSample.Dial Counters.init "/core" "a:1" 5 netTlsFail).result =
      Except.error "connection refused" ∧
    (hSample.Dial Counters.init "/core" "a:1" 5 netTlsFail).residual = none ∧
    (hSample.Dial Counters.init "/core" "a:1" 5 netWriteFail).result =
      Except.error "broken pipe" ∧
    (hSample.Dial Counters.init "/core" "a:1" 5 netOk).counters.http_dialed = 1 := by
  have t1 := (C7_dial_failure_closes_and_counts hSample Counters.init "/core" "a:1"
    5 netTlsFail).1 "connection refused" rfl
  have t2 := (C7_dial_failure_closes_and_counts hSample Counters.init "/core" "a:1"
    5 netWriteFail).2.1 {} "broken pipe" rfl rfl
  have t3 := (C7_dial_failure_closes_and_counts hSample Counters.init "/core" "a:1"
    5 netOk).2.2 {} rfl rfl
  exact ⟨t1.1, t1.2.1, t2.1, t3.2.1⟩

/-- Claim C8 counterexample: `Addr()` returns the listener itself
(`return h`), so the value it returns does alias the mutable listener
state: after `Close` mutates the listener, `Addr` yields a different value
even though the address string is unchanged.  This refutes the claim that
the returned value is immutable and does not alias the listener. -/
theorem C8_counterexample :
    HTTPStream.Addr hSample.Close.fst ≠ HTTPStream.Addr hSample ∧
    hSample.Close.fst.addr = hSample.addr := by
  constructor
  · decide
  · rfl

/-- Claim C8 amended: `Addr` returns the listener value itself; through it
the `String` accessor yields the local address fixed at construction (and
still yields it after `Close`) and `Network` yields `"tcp"`, but the
returned value aliases the mutable listener state — the closed flag is
visible through it. -/
theorem C8_amended_addr_is_listener (h : HTTPStream) :
    h.Addr = h ∧
    h.Addr.String = h.addr ∧
    h.Addr.Network = "tcp" ∧
    h.Close.fst.Addr.String = h.addr ∧
    h.Close.fst.Addr.closed = true :=
  ⟨rfl, rfl, rfl, rfl, rfl⟩

/-- Helper: `Accept` preserves the closed flag and the address, and only
ever removes connections from the handoff channel. -/
theorem accept_frame (h : HTTPStream) (cnt : Counters) :
    (h.Accept cnt).stream.closed = h.closed ∧
    (h.Accept cnt).stream.addr = h.addr ∧
    (∀ c, c ∈ (h.Accept cnt).stream.accepted → c ∈ h.accepted) := by
  unfold HTTPStream.Accept
  split
  · exact ⟨rfl, rfl, fun c hc => hc⟩
  · split
    · exact ⟨rfl, rfl, fun c hc => hc⟩
    · rename_i c rest heq
      exact ⟨rfl, rfl, fun d hd => by rw [heq]; exact List.mem_cons_of_mem c hd⟩

/-- Helper: `ServeHTTP` preserves the closed flag and the address, and when
it observes the closed flag true it pushes nothing into the channel. -/
theorem serve_frame (h : HTTPStream) (cnt : Counters) (r : Request) :
    (h.ServeHTTP cnt r).stream.closed = h.closed ∧
    (h.ServeHTTP cnt r).stream.addr = h.addr ∧
    (h.closed = true → (h.ServeHTTP cnt r).stream.accepted = h.accepted) := by
  unfold HTTPStream.ServeHTTP
  split
  · exact ⟨rfl, rfl, fun _ => rfl⟩
  · split
    · exact ⟨rfl, rfl, fun _ => rfl⟩
    · split
      · exact ⟨rfl, rfl, fun _ => rfl⟩
      · split
        · exact ⟨rfl, rfl, fun _ => rfl⟩
        · split
          · exact ⟨rfl, rfl, fun _ => rfl⟩
          · exact ⟨rfl, rfl, fun hc => absurd hc (by assumption)⟩

/-- Claim C9: state invariants of every operation.  `Close` sets the closed
flag (and touches nothing else); `Accept`, `ServeHTTP` and `Dial` never
change the closed flag, so once true it never reverts; `ServeHTTP` pushes
nothing into the handoff channel when it observes the closed flag true, and
`Accept` only ever removes connections; the address field is unchanged by
every operation; `Addr` itself is read-only. -/
theorem C9_state_invariants (h : HTTPStream) (cnt : Counters) (r : Request)
    (pfx a : String) (t : Nat) (net : Net) :
    (h.Close.fst.closed = true ∧ h.Close.fst.addr = h.addr ∧
      h.Close.fst.accepted = h.accepted) ∧
    ((h.Accept cnt).stream.closed = h.closed ∧
      (h.Accept cnt).stream.addr = h.addr ∧
      (∀ c, c ∈ (h.Accept cnt).stream.accepted → c ∈ h.accepted)) ∧
    ((h.ServeHTTP cnt r).stream.closed = h.closed ∧
      (h.ServeHTTP cnt r).stream.addr = h.addr ∧
      (h.closed = true → (h.ServeHTTP cnt r).stream.accepted = h.accepted)) ∧
    (h.Dial cnt pfx a t net).stream = h ∧
    h.Addr = h := by
  exact ⟨⟨rfl, rfl, rfl⟩, accept_frame h cnt, serve_frame h cnt r,
    dial_stream_frame h cnt pfx a t net, rfl⟩

/-- Witness for C9: the closed flag is set by a concrete `Close`, and a
closed listener's `ServeHTTP` pushes nothing for a fully valid request. -/
theorem C9_state_invariants_witness :
    hSample.Close.fst.closed = true ∧
    (hSample.Close.fst.ServeHTTP Counters.init reqSample).stream.accepted =
      hSample.Close.fst.accepted := by
  have t := C9_state_invariants hSample Counters.init reqSample "/core" "a" 1 netOk
  have tc := C9_state_invariants hSample.Close.fst Counters.init reqSample
    "/core" "a" 1 netOk
  exact ⟨t.1.1, tc.2.2.1.2.2 rfl⟩

/-- Claim C10: `Dial` never mutates the listener — the caller's timeout is
set on a local copy of the stored dialer — so after any `Dial` call, with
any outcome, the listener and each of its fields (dialer template, address,
certificates, CA reference, root pool, closed flag, handoff channel) are
unchanged. -/
theorem C10_dial_mutates_nothing (h : HTTPStream) (cnt : Counters)
    (pfx a : String) (t : Nat) (net : Net) :
    (h.Dial cnt pfx a t net).stream = h ∧
    (h.Dial cnt pfx a t net).stream.dial = h.dial ∧
    (h.Dial cnt pfx a t net).stream.addr = h.addr ∧
    (h.Dial cnt pfx a t net).stream.certificates = h.certificates ∧
    (h.Dial cnt pfx a t net).stream.ca = h.ca ∧
    (h.Dial cnt pfx a t net).stream.rootCAs = h.rootCAs ∧
    (h.Dial cnt pfx a t net).stream.closed = h.closed ∧
    (h.Dial cnt pfx a t net).stream.accepted = h.accepted := by
  have hf := dial_stream_frame h cnt pfx a t net
  exact ⟨hf, by rw [hf], by rw [hf], by rw [hf], by rw [hf], by rw [hf],
    by rw [hf], by rw [hf]⟩
